import Mathlib

/-!
# Verification of the Epiphany e-server / e-hal core

A shallow embedding, in Lean 4, of the parts of the `epiphany-libs`
repository that the specification's claims are about:

* the shared-memory manager (`src/e-hal/src/epiphany-shm-manager.c`);
* the GDB RSP server's step engine, matchpoint handling, dispatcher
  bookkeeping, File-I/O reply handling, exception-state decoding and
  `qXfer:osdata` pagination (`src/e-server/src/GdbServer.cpp`).

Machine integers are modelled as `Nat` with explicit `% 2^32` where the
C code's unsigned wraparound matters.  Constants that live in headers
that are not part of the sources (`GdbServer.h`, register maps) are
modelled from the specification and are marked as such in their doc
comments.  Memory is a map from byte addresses to the 16-bit value the
server would read there; the server only ever accesses a given location
with a single access width, so this is faithful for every trace the
claims quantify over.
-/

namespace Epiphany

/-- Two to the thirty-second, the modulus of `uint32_t` arithmetic. -/
def u32Mod : Nat := 4294967296

/-- `uint32_t` subtraction `a - b` with wraparound, both arguments
reduced to 32 bits first (as C does when mixed-width values are
assigned to a `uint32_t`). -/
def sub32 (a b : Nat) : Nat := (a % u32Mod + u32Mod - b % u32Mod) % u32Mod

/-- `getfield (v, hi, lo)`: extract bits `hi..lo` of `v`
(`(v >> lo) & ((1 << (hi-lo+1)) - 1)` in the source's bitfield helper). -/
def getfield (v hi lo : Nat) : Nat := (v / 2 ^ lo) % 2 ^ (hi - lo + 1)

/-- `setfield (v, hi, lo, x)`: `v` with bits `hi..lo` replaced by the
low bits of `x` (the source's bitfield store helper). -/
def setfield (v hi lo x : Nat) : Nat :=
  v % 2 ^ lo + v / 2 ^ (hi + 1) * 2 ^ (hi + 1) + x % 2 ^ (hi - lo + 1) * 2 ^ lo

/-! ## Constants

`ATDSP_*`, `TARGET_SIGNAL_*` and `E_*` are declared in `GdbServer.h`,
which is not among the sources; their values are modelled from the
specification (the BKPT opcode from §8 scenario 1, the instruction
lengths and the IVT geometry from §3/§4.3 and the glossary, the GDB
signal numbers from the standard RSP signal enumeration the spec names
SIGHUP/SIGTRAP/SIGBUS/..., the three-bit exception causes from §4.8). -/

/-- Modelled from the spec: the 16-bit BKPT software-breakpoint opcode
(§8 scenario 1 gives 0x01C2). -/
def ATDSP_BKPT_INSTR : Nat := 0x01c2

/-- Modelled from the spec: length in bytes of the BKPT instruction. -/
def ATDSP_BKPT_INSTLEN : Nat := 2

/-- Modelled from the spec: length in bytes of the TRAP instruction. -/
def ATDSP_TRAP_INSTLEN : Nat := 2

/-- Modelled from the spec: length in bytes of a 32-bit instruction,
also the width of one interrupt-vector entry (glossary: each IVT entry
is 4 bytes wide). -/
def ATDSP_INST32LEN : Nat := 4

/-- Modelled from the spec: number of entries in the interrupt vector
table (§3: the saved IVT copy is at least 16 × 4 bytes). -/
def ATDSP_NUM_ENTRIES_IN_IVT : Nat := 16

/-- Modelled from the spec: the low-10-bit TRAP opcode pattern compared
against `opcode[9:0]` (§4.4, §4.7); the value is the platform's and is
not pinned by the spec. -/
def ATDSP_TRAP_INSTR : Nat := 0x3e2

/-- Modelled from the spec: the low-9-bit IDLE opcode pattern compared
against `opcode[8:0]` (§4.3 special case); the value is the platform's
and is not pinned by the spec. -/
def IDLE_OPCODE : Nat := 0x1b2

/-- Modelled from the spec: GDB target signal numbers (standard RSP
enumeration: HUP=1, INT=2, QUIT=3, ILL=4, TRAP=5, ABRT=6, FPE=8,
BUS=10, NONE=0). -/
def TARGET_SIGNAL_NONE : Nat := 0

/-- Modelled from the spec: SIGHUP. -/
def TARGET_SIGNAL_HUP : Nat := 1

/-- Modelled from the spec: SIGQUIT. -/
def TARGET_SIGNAL_QUIT : Nat := 3

/-- Modelled from the spec: SIGILL. -/
def TARGET_SIGNAL_ILL : Nat := 4

/-- Modelled from the spec: SIGTRAP. -/
def TARGET_SIGNAL_TRAP : Nat := 5

/-- Modelled from the spec: SIGABRT. -/
def TARGET_SIGNAL_ABRT : Nat := 6

/-- Modelled from the spec: SIGFPE. -/
def TARGET_SIGNAL_FPE : Nat := 8

/-- Modelled from the spec: SIGBUS. -/
def TARGET_SIGNAL_BUS : Nat := 10

/-- Modelled from the spec: the three-bit `STATUS[18:16]` exception
cause for an unaligned load/store (§4.8); distinct non-zero value, not
pinned by the spec. -/
def E_UNALIGMENT_LS : Nat := 2

/-- Modelled from the spec: the exception cause for an FPU exception. -/
def E_FPU : Nat := 3

/-- Modelled from the spec: the exception cause for an unimplemented
instruction. -/
def E_UNIMPL : Nat := 4

/-! ## `GdbServer::is32BitsInstr` (GdbServer.cpp:2509-2532) -/

/-- `GdbServer::is32BitsInstr`: decide whether an opcode word begins a
32-bit instruction, exactly as the source computes it. -/
def is32BitsInstr (iab_instr : Nat) : Bool :=
  let de_extended_instr := getfield iab_instr 3 0 == 0xf
  let de_regi := getfield iab_instr 2 0 == 3
  let de_regi_long := de_regi && (getfield iab_instr 3 3 == 1)
  let de_loadstore := (getfield iab_instr 2 0 == 0x4)
                      || (getfield iab_instr 1 0 == 1)
  let de_loadstore_long := de_loadstore && (getfield iab_instr 3 3 == 1)
  let de_branch := getfield iab_instr 2 0 == 0
  let de_branch_long_sel := de_branch && (getfield iab_instr 3 3 == 1)
  de_extended_instr || de_loadstore_long || de_regi_long || de_branch_long_sel

/-! ## `GdbServer::isTargetExceptionState` (GdbServer.cpp:2753-2785)

The source reads the STATUS register and updates the in-out `exCause`
argument only when the exception bits are set; we model the function as
a pure map from the STATUS value and incoming `exCause` to the returned
flag and outgoing `exCause`. -/

/-- `GdbServer::isTargetExceptionState`, as a pure function of the
STATUS register value and the caller's incoming `exCause`. -/
def isTargetExceptionState (coreStatus exCauseIn : Nat) : Bool × Nat :=
  let exStat := getfield coreStatus 18 16
  if exStat ≠ 0 then
    let exCause := TARGET_SIGNAL_ABRT
    let exCause := if exStat = E_UNALIGMENT_LS then TARGET_SIGNAL_BUS else exCause
    let exCause := if exStat = E_FPU then TARGET_SIGNAL_FPE else exCause
    let exCause := if exStat = E_UNIMPL then TARGET_SIGNAL_ILL else exCause
    (true, exCause)
  else
    (false, exCauseIn)

/-! ## `GdbServer::rspOsDataProcesses` pagination (GdbServer.cpp:2084-2109)

The reply document itself is built from the external core list; the
pagination logic is a pure function of the document, the offset and the
requested length.  `packNStr` sends the type character followed by the
selected bytes; `packStr "l"` sends `l` with an empty body. -/

/-- The pagination step of `GdbServer::rspOsDataProcesses`: given the
generated document `doc`, a client `offset` and `length`, return the
reply type character and the reply body. -/
def osDataPage (doc : List Char) (offset length : Nat) : Char × List Char :=
  let len := doc.length
  if offset ≥ len then
    ('l', [])
  else
    let pktlen := len - offset
    if pktlen > length then
      ('m', ((doc.drop offset).take length))
    else
      ('l', ((doc.drop offset).take pktlen))

/-! ## Shared-memory manager (epiphany-shm-manager.c)

The table lives in driver-mapped memory; we model the fields the
allocation functions touch.  `MAX_SHM_REGIONS` (64, from `e_shm.h`'s
table layout) region slots are modelled as a list of that length; the
heap base addresses (`paddr_epi`, `addr`) only feed diagnostic output
and pointer formation and are represented by the region's `offset`.
`errno` and the return value are made explicit, and the model records
whether the call acquired the table semaphore, so that claims about the
critical section can be stated. -/

/-- `MAX_SHM_REGIONS` from `e_shm.h`. -/
def MAX_SHM_REGIONS : Nat := 64

/-- Linux `EINVAL`. -/
def EINVAL : Nat := 22

/-- Linux `ENOMEM`. -/
def ENOMEM : Nat := 12

/-- Linux `EEXIST`. -/
def EEXIST : Nat := 17

/-- Modelled from the spec: `sizeof(e_shmtable_t)`, the byte offset of
the heap base past the table (§3 fixes the layout but not the packed
size; the exact value does not affect any claim). -/
def shmTableSizeof : Nat := 4096

/-- One `e_shmseg_pvt_t` slot of the table: the embedded
`e_shmseg_t` (`name`, `offset`, `size`) plus `refcnt` and `valid`. -/
structure ShmRegion where
  name : String
  offset : Nat
  size : Nat
  refcnt : Nat
  valid : Bool
  deriving Repr, DecidableEq

/-- A region slot as the driver initializes it (all zero). -/
def emptyRegion : ShmRegion := ⟨"", 0, 0, 0, false⟩

/-- The fields of `e_shmtable_t` that the allocator reads or writes. -/
structure ShmTable where
  regions : List ShmRegion
  free_space : Nat
  next_free_offset : Nat
  deriving Repr, DecidableEq

/-- A freshly initialized table with heap capacity `cap`
(`free_space` starts at the capacity, no region valid). -/
def initShmTable (cap : Nat) : ShmTable :=
  ⟨List.replicate MAX_SHM_REGIONS emptyRegion, cap % u32Mod, 0⟩

/-- `shm_lookup_region`: the first valid region with the given name. -/
def shm_lookup_region (tbl : ShmTable) (name : String) : Option ShmRegion :=
  tbl.regions.find? (fun r => r.valid && r.name == name)

/-- Replace the first slot satisfying `p` using `f` (the C loops mutate
the array slot found by a linear scan and then break). -/
def updateFirst (p : ShmRegion → Bool) (f : ShmRegion → ShmRegion) :
    List ShmRegion → List ShmRegion
  | [] => []
  | r :: rs => if p r then f r :: rs else r :: updateFirst p f rs

/-- `shm_alloc_region`: claim the first invalid slot, fill in the
segment record, mark it valid and bump the allocator.  Returns the
updated table and the claimed region, or `none` when every slot is in
use (the loop falls through). -/
def shm_alloc_region (tbl : ShmTable) (name : String) (size : Nat) :
    ShmTable × Option ShmRegion :=
  if (tbl.regions.find? (fun r => !r.valid)).isSome then
    let fill := fun (r : ShmRegion) =>
      { r with name := name
               offset := shmTableSizeof + tbl.next_free_offset
               size := size
               valid := true }
    let regions := updateFirst (fun r => !r.valid) fill tbl.regions
    let tbl := { tbl with regions := regions
                          free_space := sub32 tbl.free_space size
                          next_free_offset := tbl.next_free_offset + size }
    (tbl, (tbl.regions.find? (fun r => r.valid && r.name == name)))
  else
    (tbl, none)

/-- The outcome of `e_shm_alloc`: the table afterwards, the returned
segment (as its region record) or `NULL`, the value left in `errno`
when the call fails, and whether the call entered the semaphore-guarded
critical section. -/
structure ShmAllocResult where
  table : ShmTable
  ret : Option ShmRegion
  errno : Option Nat
  acquiredLock : Bool
  deriving Repr, DecidableEq

/-- `e_shm_alloc`: reject a NULL name or zero size before taking the
lock; inside the critical section reject duplicates, check free space
(compaction is a no-op), and claim a slot, setting `valid = 1` and
`refcnt = 1` on success. -/
def e_shm_alloc (tbl : ShmTable) (name : Option String) (size : Nat) :
    ShmAllocResult :=
  match name with
  | none => ⟨tbl, none, some EINVAL, false⟩
  | some name =>
    if size = 0 then ⟨tbl, none, some EINVAL, false⟩
    else if (shm_lookup_region tbl name).isSome then
      ⟨tbl, none, some EEXIST, true⟩
    else if size > tbl.free_space then
      -- shm_compact_heap() is not yet implemented; free_space unchanged
      ⟨tbl, none, some ENOMEM, true⟩
    else
      match shm_alloc_region tbl name size with
      | (tbl', some _) =>
        let setUp := fun (r : ShmRegion) => { r with valid := true, refcnt := 1 }
        let tbl'' := { tbl' with
          regions := updateFirst (fun r => r.valid && r.name == name) setUp tbl'.regions }
        ⟨tbl'', shm_lookup_region tbl'' name, none, true⟩
      | (tbl', none) => ⟨tbl', none, none, true⟩

/-- `e_shm_release`: decrement the refcount of the named region; when
it reaches zero the source executes `tbl->free_space -= region->shm_seg.size`
and clears `valid`.  Returns the table and `E_OK`/`E_ERR` (`true` when
the region was found). -/
def e_shm_release (tbl : ShmTable) (name : String) : ShmTable × Bool :=
  match shm_lookup_region tbl name with
  | none => (tbl, false)
  | some region =>
    if sub32 region.refcnt 1 = 0 then
      let tbl := { tbl with
        regions := updateFirst (fun r => r.valid && r.name == name)
          (fun r => { r with refcnt := sub32 r.refcnt 1, valid := false }) tbl.regions
        free_space := sub32 tbl.free_space region.size }
      (tbl, true)
    else
      let tbl := { tbl with
        regions := updateFirst (fun r => r.valid && r.name == name)
          (fun r => { r with refcnt := sub32 r.refcnt 1 }) tbl.regions }
      (tbl, true)

/-- `e_shm_attach`: increment the refcount of the named region. -/
def e_shm_attach (tbl : ShmTable) (name : String) : ShmTable × Option ShmRegion :=
  match shm_lookup_region tbl name with
  | none => (tbl, none)
  | some _ =>
    let tbl := { tbl with
      regions := updateFirst (fun r => r.valid && r.name == name)
        (fun r => { r with refcnt := r.refcnt + 1 }) tbl.regions }
    (tbl, shm_lookup_region tbl name)

/-- Sum of the sizes of the valid regions of a table. -/
def validSizeSum (tbl : ShmTable) : Nat :=
  (tbl.regions.filter (fun r => r.valid)).foldl (fun a r => a + r.size) 0

/-! ## Target machine view

The server accesses the target only through `readMem16`/`writeMem16`
(and bursts over the same bytes) plus a handful of memory-mapped
registers reached through dedicated helpers (`readPc`, `writePc`,
`readGpr`, `writeGpr`, `readCoreStatus`, `readScrGrp0`, and the
DEBUG/DEBUGCMD pair wrapped by `isTargetInDebugState`/`targetResume`).
We model the registers as named fields and the memory as a map from
byte address to the 16-bit value read there. -/

/-- 2^32 − 1, the mask used to complement 32-bit register values. -/
def u32Max : Nat := 4294967295

/-- Addition with `uint32_t` wraparound. -/
def add32 (a b : Nat) : Nat := (a + b) % u32Mod

/-- The per-core machine state the server reads and writes. -/
structure Mach where
  mem16 : Nat → Nat
  pc : Nat
  status : Nat
  imask : Nat
  ilat : Nat
  iret : Nat
  gpr : Nat → Nat
  halted : Bool

/-- `writeMem16`. -/
def writeMem16 (m : Mach) (a v : Nat) : Mach :=
  { m with mem16 := fun x => if x = a then v % 65536 else m.mem16 x }

/-- `writePc`. -/
def writePc (m : Mach) (v : Nat) : Mach := { m with pc := v % u32Mod }

/-- `writeGpr`. -/
def writeGpr (m : Mach) (n v : Nat) : Mach :=
  { m with gpr := fun i => if i = n then v % u32Mod else m.gpr i }

/-- `GdbServer::putBreakPointInstruction`: write the BKPT opcode. -/
def putBreakPointInstruction (m : Mach) (a : Nat) : Mach :=
  writeMem16 m a ATDSP_BKPT_INSTR

/-- `GdbServer::isHitInBreakPointInstruction`: does the 16-bit word at
the address hold BKPT? -/
def isHitInBreakPointInstruction (m : Mach) (a : Nat) : Bool :=
  m.mem16 a == ATDSP_BKPT_INSTR

/-! ## Matchpoint table (`MpHash`)

Modelled from the spec: `MpHash.cpp` is not among the sources; §3 fixes
its semantics as a mapping from (kind, address) to the saved 16-bit
opcode with unique keys and `insert`/`lookup`/`remove`.  Only the
`BP_MEMORY` kind is ever stored, so the table is keyed by address
alone; the non-memory kinds never reach the table (their handlers reply
"unsupported" first). -/

/-- The matchpoint table: address ↦ saved 16-bit opcode, keys unique. -/
abbrev MpTable : Type := List (Nat × Nat)

/-- `MpHash::lookup` (restricted to `BP_MEMORY`). -/
def mpLookup (t : MpTable) (a : Nat) : Option Nat :=
  match t.find? (fun e => e.1 == a) with
  | some e => some e.2
  | none => none

/-- `MpHash::add`: insert, keeping keys unique (replace an existing
entry for the same address). -/
def mpAdd (t : MpTable) (a v : Nat) : MpTable :=
  match t with
  | [] => [(a, v)]
  | e :: es => if e.1 = a then (a, v) :: es else e :: mpAdd es a v

/-- `MpHash::remove`: delete the entry for the address, returning the
saved opcode when one was present. -/
def mpRemove (t : MpTable) (a : Nat) : Option (Nat × MpTable) :=
  match t with
  | [] => none
  | e :: es =>
    if e.1 = a then some (e.2, es)
    else match mpRemove es a with
         | some (v, es') => some (v, e :: es')
         | none => none

/-! ## Server state and replies -/

/-- An RSP reply as the dispatcher classifies it: a stop packet
(`S`/`T` + signal, with optional thread id) or one of the ordinary
payloads. -/
inductive Reply
  | stop (sig thread : Nat)
  | ok
  | e01
  | empty
  deriving Repr, DecidableEq

/-- Is this reply a stop packet? -/
def isStopReply : Reply → Bool
  | .stop _ _ => true
  | _ => false

/-- The dispatcher state the claims mention: the target view, the
matchpoint table and `fIsTargetRunning`. -/
structure Server where
  mach : Mach
  mp : MpTable
  running : Bool

/-- `GdbServer::rspReportException` (GdbServer.cpp:418-456): send a
stop packet, then clear `fIsTargetRunning`. -/
def rspReportException (s : Server) (sig thread : Nat) : Server × Reply :=
  ({ s with running := false }, .stop sig thread)

/-- `GdbServer::targetResume` (GdbServer.cpp:563-579): write RUN to
DEBUGCMD and set `fIsTargetRunning`; no reply is sent. -/
def targetResume (s : Server) : Server :=
  { s with mach := { s.mach with halted := false }, running := true }

/-! ## `GdbServer::rspFileIOreply` (GdbServer.cpp:865-900)

The source runs `sscanf(pkt->data, "F%lx,%lx", ...)`, falling back to
`"F%lx"`.  We embed the successful-parse shapes: a leading `F`, a
maximal non-empty run of hex digits, then optionally a comma and a
second run. -/

/-- The numeric value of one hex digit, if the character is one. -/
def hexDigitVal (c : Char) : Option Nat :=
  if '0' ≤ c ∧ c ≤ '9' then some (c.toNat - '0'.toNat)
  else if 'a' ≤ c ∧ c ≤ 'f' then some (c.toNat - 'a'.toNat + 10)
  else if 'A' ≤ c ∧ c ≤ 'F' then some (c.toNat - 'A'.toNat + 10)
  else none

/-- Split a maximal run of hex digits (as digit values) off the front. -/
def takeHexRun : List Char → List Nat × List Char
  | [] => ([], [])
  | c :: cs =>
    match hexDigitVal c with
    | some d => let (ds, r) := takeHexRun cs; (d :: ds, r)
    | none => ([], c :: cs)

/-- The value of a big-endian list of hex digit values. -/
def hexRunVal (ds : List Nat) : Nat := ds.foldl (fun a d => a * 16 + d) 0

/-- One `%lx` conversion: fails on an empty digit run. -/
def parseHexNum (s : List Char) : Option (Nat × List Char) :=
  match takeHexRun s with
  | ([], _) => none
  | (ds, r) => some (hexRunVal ds, r)

/-- Parse an `F` reply payload into (result, optional errno), following
the two `sscanf` patterns of the source. -/
def parseFPacket (s : List Char) : Option (Nat × Option Nat) :=
  match s with
  | [] => none
  | c :: rest =>
    if c = 'F' then
      match parseHexNum rest with
      | none => none
      | some (res, rest') =>
        match rest' with
        | [] => some (res, none)
        | c2 :: r2 =>
          if c2 = ',' then
            match parseHexNum r2 with
            | some (err, _) => some (res, some err)
            | none => some (res, none)
          else some (res, none)
    else none

/-- `GdbServer::rspFileIOreply`: write the result into r0 and, when an
errno field is present, the errno into r3; a malformed payload writes
nothing. -/
def rspFileIOreply (payload : List Char) (m : Mach) : Mach :=
  match parseFPacket payload with
  | some (res, some err) => writeGpr (writeGpr m 0 res) 3 err
  | some (res, none) => writeGpr m 0 res
  | none => m

/-! ## The RSP dispatcher (`GdbServer::rspClientRequest`)

The embedding covers the packet kinds the claims quantify over: the
stop-status query, thread-alive, the deprecated/unsupported commands,
software-breakpoint insert/remove, the File-I/O reply, `vAttach`,
detach and kill.  (`c`/`s` run the engines modelled separately below.)
Each handler returns the new server state and the list of replies it
sent, in order. -/

/-- The decoded request packets covered by the dispatcher model. -/
inductive Pkt
  | lastSignal                  -- '?'
  | threadAlive                 -- 'T'
  | extendedMode                -- '!'
  | argvInit                    -- 'A'
  | detach                      -- 'D'
  | kill                        -- 'k'
  | insertSwBp (addr : Nat)     -- 'Z0,addr,2'
  | removeSwBp (addr : Nat)     -- 'z0,addr,2'
  | insertOtherMp               -- 'Z1'..'Z4'
  | removeOtherMp               -- 'z1'..'z4'
  | fileIOPkt (payload : List Char) -- 'F...'
  | vAttach                     -- 'vAttach;...'

/-- One iteration of `GdbServer::rspClientRequest` on a decoded
packet. -/
def dispatch (s : Server) : Pkt → Server × List Reply
  | .lastSignal =>
    let (s', r) := rspReportException s TARGET_SIGNAL_TRAP 0
    (s', [r])
  | .threadAlive => (s, [.ok])
  | .extendedMode => (s, [.empty])
  | .argvInit => (s, [.e01])
  | .detach => (s, [.ok])
  | .kill => ({ s with running := false }, [])
  | .insertSwBp addr =>
    -- rspInsertMatchpoint, BP_MEMORY case (GdbServer.cpp:3480-3491)
    let bpMemVal := s.mach.mem16 addr
    let mp := mpAdd s.mp addr bpMemVal
    let mach := putBreakPointInstruction s.mach addr
    ({ s with mach := mach, mp := mp }, [.ok])
  | .removeSwBp addr =>
    -- rspRemoveMatchpoint, BP_MEMORY case (GdbServer.cpp:3399-3408)
    match mpRemove s.mp addr with
    | some (instr, mp') =>
      ({ s with mach := writeMem16 s.mach addr instr, mp := mp' }, [.ok])
    | none => (s, [.ok])
  | .insertOtherMp => (s, [.empty])
  | .removeOtherMp => (s, [.empty])
  | .fileIOPkt payload =>
    let s' := { s with mach := rspFileIOreply payload s.mach }
    (targetResume s', [])
  | .vAttach => (s, [.stop TARGET_SIGNAL_TRAP 0])

/-! ## The step engine (`GdbServer::rspStep(addr, except)`, GdbServer.cpp:2880-3200)

The hardware run between `targetResume` and the halt observed by the
spin loop is external to the server; it is passed in as a function
`run : Mach → Mach` giving the machine state at the moment the loop
observes `isTargetInDebugState`.  `saveIVT`/`restoreIVT` burst-copy the
first `ATDSP_NUM_ENTRIES_IN_IVT × 4` bytes of memory into and out of
`fIVTSaveBuff`; in the 16-bit-word memory model these are the words at
even addresses below that bound. -/

/-- The byte addresses of the 16-bit words making up the saved IVT
region (`sizeof(fIVTSaveBuff)` bytes from address 0). -/
def ivtWordAddrs : List Nat :=
  (List.range (ATDSP_NUM_ENTRIES_IN_IVT * 2)).map (· * 2)

/-- `GdbServer::restoreIVT`: burst-write the saved buffer back over the
IVT region. -/
def restoreIVT (m : Mach) (buf : Nat → Nat) : Mach :=
  { m with mem16 := fun a => if a ∈ ivtWordAddrs then buf a else m.mem16 a }

/-- The IVT entry addresses the non-IDLE step path writes BKPT to:
entries `1..N-1` (entry 0, the reset vector, is skipped), except the
entry equal to the stepped PC (`// don't overwrite the PC`). -/
def ivtPlantAddrs (pc : Nat) : List Nat :=
  (((List.range ATDSP_NUM_ENTRIES_IN_IVT).drop 1).map (· * ATDSP_INST32LEN)).filter
    (fun a => pc ≠ a)

/-- The IVT entry addresses the IDLE path writes BKPT to: entries
`1..N-1`, no PC skip. -/
def ivtPlantAddrsIdle : List Nat :=
  ((List.range ATDSP_NUM_ENTRIES_IN_IVT).drop 1).map (· * ATDSP_INST32LEN)

/-- The change-of-flow target `bkpt_jump_addr` computed by the step
engine from the opcode, the extension word and the registers
(GdbServer.cpp:3046-3102); defaults to the sequential breakpoint
address. -/
def stepJumpAddr (m : Mach) (op ext bkpt_addr pc : Nat) : Nat :=
  let bja := bkpt_addr
  -- immediate branch (low3 == 0), sign-extended displacement << 1
  let bja :=
    if getfield op 2 0 = 0 then
      let immExt := setfield 0 7 0 (getfield op 15 8)
      let immExt :=
        if is32BitsInstr op then
          let immExt := setfield immExt 23 8 (getfield ext 15 0)
          if getfield immExt 23 23 = 1 then setfield immExt 31 24 0xff else immExt
        else
          if getfield immExt 7 7 = 1 then setfield immExt 31 8 0xffffff else immExt
      (pc + immExt * 2) % u32Mod
    else bja
  -- RTI
  let bja := if getfield op 8 0 = 0x1d2 then m.iret % u32Mod else bja
  -- short register-indirect jump
  let bja :=
    if getfield op 8 0 = 0x142 ∨ getfield op 8 0 = 0x152 then
      m.gpr (getfield op 12 10) % u32Mod
    else bja
  -- long register-indirect jump
  let bja :=
    if getfield op 8 0 = 0x14f ∨ getfield op 8 0 = 0x15f then
      m.gpr (getfield ext 12 10 * 8 + getfield op 12 10) % u32Mod
    else bja
  bja

/-- The possible outcomes of one `rspStep(addr, except)` call.  The
`planted` list in the stepping outcomes records the IVT addresses the
engine wrote BKPT into before resuming, and `seqAddr`/`jumpAddr` record
the transient breakpoint addresses (`bkpt_addr`/`bkpt_jump_addr`);
these are observations of the run, not extra state.  `trapRedirect`
carries the state at the hand-off to `redirectSdioOnTrap` (modelled
separately); `assertFail` is an `assert`/abort path; `notDebug` and
`pcWriteFail` are the two `exit(8)` paths. -/
inductive StepOut
  | notDebug
  | excStop (sig : Nat) (s : Server)
  | idleDone (planted : List Nat) (s : Server)
  | trapRedirect (trapNum : Nat) (s : Server)
  | pcWriteFail
  | assertFail (planted : List Nat)
  | stepped (planted : List Nat) (seqAddr jumpAddr : Nat) (s : Server)

/-- The tail of the main step path (GdbServer.cpp:3129-3200), from
`saveIVT` onward: plant the IVT transient breakpoints, resume, wait for
the halt, restore the IVT in one burst, rewind the PC, remove the two
hidden breakpoints (asserting they are in the table) and report TRAP.
`running` is the dispatcher's flag at entry; `bkpt_addr`/`bja` and
`mp2`/`m2` are the values reaching this phase. -/
def stepFinish (run : Mach → Mach) (pc_ : Nat) (running : Bool)
    (bkpt_addr bja : Nat) (mp2 : MpTable) (m2 : Mach) : StepOut :=
  -- saveIVT, then put bkpt instructions into the IVT entries
  let buf := m2.mem16
  let planted := ivtPlantAddrs pc_
  let m3 := planted.foldl putBreakPointInstruction m2
  -- resume and spin until the halt is observed
  let m4 := run { m3 with halted := false }
  let m5 := restoreIVT m4 buf
  let prevPc := sub32 m5.pc ATDSP_BKPT_INSTLEN
  -- assert: stopped on a hidden breakpoint or on bkpt at the jump target
  if !((mpLookup mp2 prevPc).isSome || isHitInBreakPointInstruction m5 bja) then
    .assertFail planted
  else
    let m6 := writePc m5 prevPc
    -- remove the "hidden" breakpoints (assert: should be in cache)
    match mpRemove mp2 bkpt_addr with
    | none => .assertFail planted
    | some (instr_saved, mp3) =>
      let m7 := writeMem16 m6 bkpt_addr instr_saved
      if bja ≠ bkpt_addr then
        match mpRemove mp3 bja with
        | none => .assertFail planted
        | some (instr_saved2, mp4) =>
          let m8 := writeMem16 m7 bja instr_saved2
          .stepped planted bkpt_addr bja
            (rspReportException ⟨m8, mp4, running⟩ TARGET_SIGNAL_TRAP 0).1
      else
        .stepped planted bkpt_addr bja
          (rspReportException ⟨m7, mp3, running⟩ TARGET_SIGNAL_TRAP 0).1

/-- The main (non-IDLE, non-TRAP) step path (GdbServer.cpp:3009-3128):
fetch the opcode and extension word, plant the sequential and
change-of-flow transient breakpoints, then fall into `stepFinish`.
`pc_` is the PC read back after `writePc(addr)`. -/
def rspStepMain (run : Mach → Mach) (pc_ : Nat) (s : Server) : StepOut :=
  let m0 := writePc s.mach pc_
  let instrOpcode := m0.mem16 pc_
  let instrExt := m0.mem16 (add32 pc_ 2)
  let is32 := is32BitsInstr instrOpcode
  let bkpt_addr := add32 pc_ (if is32 then 4 else 2)
  -- sequential transient breakpoint
  let mp1 :=
    if (mpLookup s.mp bkpt_addr).isNone then
      mpAdd s.mp bkpt_addr (m0.mem16 bkpt_addr)
    else s.mp
  let m1 := putBreakPointInstruction m0 bkpt_addr
  -- change-of-flow transient breakpoint
  let bja := stepJumpAddr m1 instrOpcode instrExt bkpt_addr pc_
  let mp2 :=
    if bja ≠ bkpt_addr then
      if (mpLookup mp1 bja).isNone then mpAdd mp1 bja (m1.mem16 bja)
      else mp1
    else mp1
  let m2 := if bja ≠ bkpt_addr then putBreakPointInstruction m1 bja else m1
  stepFinish run pc_ s.running bkpt_addr bja mp2 m2

/-- `GdbServer::rspStep (uint32_t addr, uint32_t except)`. -/
def rspStep (run : Mach → Mach) (addr : Nat) (s : Server) : StepOut :=
  let m := s.mach
  -- isTargetInDebugState check; failure replies E01 and exits
  if !m.halted then .notDebug
  else
    let reportedPc := m.pc
    -- exception state: can't step, just report
    let exPair := isTargetExceptionState m.status TARGET_SIGNAL_NONE
    if exPair.1 then .excStop exPair.2 (rspReportException s exPair.2 0).1
    else
      let instrOpcode := m.mem16 reportedPc
      if getfield instrOpcode 8 0 = IDLE_OPCODE then
        -- IDLE special case
        if getfield m.status 1 1 = 0 ∧
            Nat.land (Nat.xor (m.imask % u32Mod) u32Max) (m.ilat % u32Mod) ≠ 0 then
          let buf := m.mem16                      -- saveIVT
          let m1 := ivtPlantAddrsIdle.foldl putBreakPointInstruction m
          let m2 := run { m1 with halted := false } -- targetResume; spin to halt
          let m3 := restoreIVT m2 buf
          let pcNew := sub32 m3.pc ATDSP_BKPT_INSTLEN
          let m4 := writePc m3 pcNew
          .idleDone ivtPlantAddrsIdle
            (rspReportException { s with mach := m4 } TARGET_SIGNAL_TRAP 0).1
        else
          let pcNew := sub32 m.pc ATDSP_BKPT_INSTLEN
          let m4 := writePc m pcNew
          .idleDone []
            (rspReportException { s with mach := m4 } TARGET_SIGNAL_TRAP 0).1
      else if getfield instrOpcode 9 0 = ATDSP_TRAP_INSTR then
        -- semihosting trap: hand off to redirectSdioOnTrap
        let trapNumber := getfield instrOpcode 15 10
        let m' := writePc m (add32 addr ATDSP_TRAP_INSTLEN)
        .trapRedirect trapNumber { s with mach := m', running := false }
      else
        -- writePc(addr), then verify the readback matches (else exit(8));
        -- on success the main path proceeds with pc_ = addr
        if addr % u32Mod ≠ addr then .pcWriteFail
        else rspStepMain run addr s

/-! # Theorems -/

/-- C6: for every opcode word, the step engine classifies the
instruction as 32-bit if and only if: bits 3..0 equal 0xF, or bits 2..0
equal 3 and bit 3 equals 1, or (bits 2..0 equal 4 or bits 1..0 equal 1)
and bit 3 equals 1, or bits 2..0 equal 0 and bit 3 equals 1. -/
theorem c6_is32BitsInstr_characterization (op : Nat) :
    is32BitsInstr op = true ↔
      (op % 16 = 15 ∨
       (op % 8 = 3 ∧ op / 8 % 2 = 1) ∨
       ((op % 8 = 4 ∨ op % 4 = 1) ∧ op / 8 % 2 = 1) ∨
       (op % 8 = 0 ∧ op / 8 % 2 = 1)) := by
  simp only [is32BitsInstr, getfield, Bool.or_eq_true, Bool.and_eq_true,
    beq_iff_eq, Nat.div_one]
  norm_num
  tauto

/-- C7: for every STATUS value, the exception-state check reports an
exception exactly when bits 18..16 are non-zero, and maps the cause to
the stop signal: `E_UNALIGMENT_LS → SIGBUS`, `E_FPU → SIGFPE`,
`E_UNIMPL → SIGILL`, any other non-zero cause → SIGABRT (a zero cause
leaves the caller's `exCause` untouched). -/
theorem c7_exception_state_mapping (status exIn : Nat) :
    ((isTargetExceptionState status exIn).1 = true ↔
      getfield status 18 16 ≠ 0) ∧
    (isTargetExceptionState status exIn).2 =
      (if getfield status 18 16 = 0 then exIn
       else if getfield status 18 16 = E_UNALIGMENT_LS then TARGET_SIGNAL_BUS
       else if getfield status 18 16 = E_FPU then TARGET_SIGNAL_FPE
       else if getfield status 18 16 = E_UNIMPL then TARGET_SIGNAL_ILL
       else TARGET_SIGNAL_ABRT) := by
  unfold isTargetExceptionState
  rcases Nat.eq_zero_or_pos (getfield status 18 16) with h | h
  · simp [h]
  · have hne : getfield status 18 16 ≠ 0 := Nat.pos_iff_ne_zero.mp h
    simp only [hne, if_true, ite_not, if_neg hne]
    refine ⟨by simp [hne], ?_⟩
    by_cases h2 : getfield status 18 16 = E_UNALIGMENT_LS <;>
      by_cases h3 : getfield status 18 16 = E_FPU <;>
        by_cases h4 : getfield status 18 16 = E_UNIMPL <;>
          simp_all [E_UNALIGMENT_LS, E_FPU, E_UNIMPL]

/-- C9: pagination of the `qXfer:osdata:read` reply: an offset at or
past the end replies `l` with an empty body; when `offset + length`
is strictly below the total size the reply is `m` with exactly `length`
bytes starting at `offset`; otherwise the reply is `l` with the
remaining `size − offset` bytes. -/
theorem c9_osdata_pagination (doc : List Char) (offset length : Nat) :
    (offset ≥ doc.length → osDataPage doc offset length = ('l', [])) ∧
    (offset + length < doc.length →
      osDataPage doc offset length = ('m', (doc.drop offset).take length) ∧
      ((doc.drop offset).take length).length = length) ∧
    (offset < doc.length → doc.length ≤ offset + length →
      osDataPage doc offset length = ('l', doc.drop offset) ∧
      (doc.drop offset).length = doc.length - offset) := by
  refine ⟨fun h => by simp [osDataPage, h], fun h => ?_, fun h1 h2 => ?_⟩
  · have hlt : offset < doc.length := by omega
    have hgt : doc.length - offset > length := by omega
    constructor
    · simp only [osDataPage]
      rw [if_neg (by omega), if_pos hgt]
    · rw [List.length_take, List.length_drop]
      omega
  · have hle : ¬ (doc.length - offset > length) := by omega
    constructor
    · simp only [osDataPage]
      rw [if_neg (by omega), if_neg hle]
      have : (doc.drop offset).take (doc.length - offset) = doc.drop offset := by
        apply List.take_of_length_le
        rw [List.length_drop]
      rw [this]
    · rw [List.length_drop]

/-- Witness for C9 at concrete inputs exercising all three regimes. -/
theorem c9_osdata_pagination_witness :
    (osDataPage ['a', 'b', 'c'] 5 1 = ('l', []) ∧
     osDataPage ['a', 'b', 'c'] 0 2 = ('m', ['a', 'b']) ∧
     osDataPage ['a', 'b', 'c'] 1 2 = ('l', ['b', 'c'])) := by
  refine ⟨(c9_osdata_pagination ['a', 'b', 'c'] 5 1).1 (by decide), ?_, ?_⟩
  · have h := ((c9_osdata_pagination ['a', 'b', 'c'] 0 2).2.1 (by decide)).1
    simpa using h
  · have h := ((c9_osdata_pagination ['a', 'b', 'c'] 1 2).2.2 (by decide)
      (by decide)).1
    simpa using h

/-- C10: `e_shm_alloc` with a NULL name or zero size returns NULL with
`errno = EINVAL`, without acquiring the table semaphore and without
modifying the table. -/
theorem c10_alloc_rejects_invalid_args (tbl : ShmTable) (name : Option String)
    (size : Nat) (h : name = none ∨ size = 0) :
    e_shm_alloc tbl name size = ⟨tbl, none, some EINVAL, false⟩ := by
  rcases h with h | h
  · subst h; rfl
  · cases name with
    | none => rfl
    | some n => subst h; simp [e_shm_alloc]

/-- Witness for C10: a zero-size request against a fresh table. -/
theorem c10_alloc_rejects_invalid_args_witness :
    ((some "x" = (none : Option String) ∨ 0 = 0) ∧
     e_shm_alloc (initShmTable 1024) (some "x") 0 =
       ⟨initShmTable 1024, none, some EINVAL, false⟩) :=
  ⟨Or.inr rfl, c10_alloc_rejects_invalid_args (initShmTable 1024) (some "x") 0
    (Or.inr rfl)⟩

/-- C1, evaluation at the failing input: from a fresh table with heap
capacity 1024, `e_shm_alloc("a", 4)` leaves `free_space = 1020`; the
subsequent `e_shm_release("a")` drops the refcount to zero, clears
`valid` and returns success, but executes `free_space -= size` a second
time, leaving `free_space = 1016` — the claim (and spec §4.9) require
it to add the size back, restoring 1024 = capacity − Σ size(valid). -/
theorem c1_release_subtracts_instead_of_adding :
    (e_shm_alloc (initShmTable 1024) (some "a") 4).table.free_space = 1020 ∧
    (e_shm_release (e_shm_alloc (initShmTable 1024) (some "a") 4).table
       "a").2 = true ∧
    (shm_lookup_region
       (e_shm_release (e_shm_alloc (initShmTable 1024) (some "a") 4).table
          "a").1 "a") = none ∧
    validSizeSum
      (e_shm_release (e_shm_alloc (initShmTable 1024) (some "a") 4).table
         "a").1 = 0 ∧
    (e_shm_release (e_shm_alloc (initShmTable 1024) (some "a") 4).table
       "a").1.free_space = 1016 := by
  refine ⟨?_, ?_, ?_, ?_, ?_⟩ <;> rfl

/-! ### Hex-run helper lemmas for the File-I/O reply claim -/

/-- A canonical character for one hex digit value (lowercase). -/
def hexChar (d : Nat) : Char :=
  if d < 10 then Char.ofNat ('0'.toNat + d) else Char.ofNat ('a'.toNat + d - 10)

theorem hexDigitVal_hexChar (d : Nat) (h : d < 16) :
    hexDigitVal (hexChar d) = some d := by
  interval_cases d <;> decide

/-- A list that `%lx` would stop in front of: empty, or headed by a
non-hex-digit character. -/
def hexRunStops : List Char → Prop
  | [] => True
  | c :: _ => hexDigitVal c = none

theorem takeHexRun_map_append (ds : List Nat) (rest : List Char)
    (h : ∀ d ∈ ds, d < 16) (hrest : hexRunStops rest) :
    takeHexRun (ds.map hexChar ++ rest) = (ds, rest) := by
  induction ds with
  | nil =>
    cases rest with
    | nil => rfl
    | cons c cs =>
      simp only [List.map_nil, List.nil_append, takeHexRun]
      simp only [hexRunStops] at hrest
      rw [hrest]
  | cons d ds ih =>
    have hd : d < 16 := h d (by simp)
    have ih' := ih (fun x hx => h x (by simp [hx]))
    simp only [List.map_cons, List.cons_append, takeHexRun,
      hexDigitVal_hexChar d hd, List.append_eq, ih']

theorem parseHexNum_map_append (ds : List Nat) (rest : List Char)
    (hne : ds ≠ []) (h : ∀ d ∈ ds, d < 16) (hrest : hexRunStops rest) :
    parseHexNum (ds.map hexChar ++ rest) = some (hexRunVal ds, rest) := by
  unfold parseHexNum
  rw [takeHexRun_map_append ds rest h hrest]
  cases ds with
  | nil => exact absurd rfl hne
  | cons d ds => rfl

/-- C8: an `F<result>,<errno>` reply writes the result into r0 and the
errno into r3; an `F<result>` reply with no errno field writes only the
result into r0 and leaves r3 untouched.  The numbers are written as
non-empty runs of hex digits, as the source's `sscanf` patterns
require. -/
theorem c8_fileio_reply_registers (m : Mach) (rd ed : List Nat)
    (h1 : rd ≠ []) (h2 : ∀ d ∈ rd, d < 16)
    (h3 : ed ≠ []) (h4 : ∀ d ∈ ed, d < 16) :
    ((rspFileIOreply ('F' :: (rd.map hexChar ++ ',' :: ed.map hexChar)) m).gpr 0
        = hexRunVal rd % u32Mod ∧
     (rspFileIOreply ('F' :: (rd.map hexChar ++ ',' :: ed.map hexChar)) m).gpr 3
        = hexRunVal ed % u32Mod) ∧
    ((rspFileIOreply ('F' :: rd.map hexChar) m).gpr 0
        = hexRunVal rd % u32Mod ∧
     (rspFileIOreply ('F' :: rd.map hexChar) m).gpr 3 = m.gpr 3) := by
  have hstop : hexRunStops (',' :: ed.map hexChar) := by
    simp [hexRunStops, hexDigitVal]
  have hed : parseHexNum (ed.map hexChar) = some (hexRunVal ed, []) := by
    have := parseHexNum_map_append ed [] h3 h4 trivial
    simpa using this
  have hrd : parseHexNum (rd.map hexChar) = some (hexRunVal rd, []) := by
    have := parseHexNum_map_append rd [] h1 h2 trivial
    simpa using this
  have hp1 : parseFPacket ('F' :: (rd.map hexChar ++ ',' :: ed.map hexChar))
      = some (hexRunVal rd, some (hexRunVal ed)) := by
    simp [parseFPacket, parseHexNum_map_append rd _ h1 h2 hstop, hed]
  have hp2 : parseFPacket ('F' :: rd.map hexChar)
      = some (hexRunVal rd, none) := by
    cases hrd' : rd.map hexChar with
    | nil => exact absurd (List.map_eq_nil_iff.mp hrd') h1
    | cons c cs =>
      simp [parseFPacket, hrd' ▸ hrd]
  refine ⟨?_, ?_⟩
  · unfold rspFileIOreply
    rw [hp1]
    constructor <;> simp [writeGpr]
  · unfold rspFileIOreply
    rw [hp2]
    constructor <;> simp [writeGpr]

/-- Witness for C8: the reply `F5,4` writes 5 to r0 and 4 to r3, and
the reply `F5` writes 5 to r0 leaving r3 alone, on a machine whose
registers start at 9. -/
theorem c8_fileio_reply_registers_witness :
    ((rspFileIOreply ['F', '5', ',', '4'] (Mach.mk (fun _ => 0) 0 0 0 0 0
        (fun _ => 9) true)).gpr 0 = 5 ∧
     (rspFileIOreply ['F', '5', ',', '4'] (Mach.mk (fun _ => 0) 0 0 0 0 0
        (fun _ => 9) true)).gpr 3 = 4) ∧
    ((rspFileIOreply ['F', '5'] (Mach.mk (fun _ => 0) 0 0 0 0 0
        (fun _ => 9) true)).gpr 0 = 5 ∧
     (rspFileIOreply ['F', '5'] (Mach.mk (fun _ => 0) 0 0 0 0 0
        (fun _ => 9) true)).gpr 3 = 9) := by
  have h := c8_fileio_reply_registers
    (Mach.mk (fun _ => 0) 0 0 0 0 0 (fun _ => 9) true) [5] [4]
    (by decide) (by decide) (by decide) (by decide)
  simpa [hexChar, hexRunVal, u32Mod] using h

/-! ### Matchpoint-table lemmas -/

theorem mpRemove_of_lookup_none (t : MpTable) (a : Nat)
    (h : mpLookup t a = none) : mpRemove t a = none := by
  induction t with
  | nil => rfl
  | cons e es ih =>
    simp only [mpLookup, List.find?_cons] at h
    rcases he : (e.1 == a) with _ | _
    · rw [he] at h
      simp only [mpRemove, beq_iff_eq] at he ⊢
      rw [if_neg (by simpa using he), ih (by simpa [mpLookup] using h)]
    · rw [he] at h
      simp at h

theorem mpRemove_mpAdd_of_lookup_none (t : MpTable) (a v : Nat)
    (h : mpLookup t a = none) : mpRemove (mpAdd t a v) a = some (v, t) := by
  induction t with
  | nil => simp [mpAdd, mpRemove]
  | cons e es ih =>
    simp only [mpLookup, List.find?_cons] at h
    rcases he : (e.1 == a) with _ | _
    · rw [he] at h
      have hne : e.1 ≠ a := by simpa using he
      simp only [mpAdd, mpRemove, if_neg hne,
        ih (by simpa [mpLookup] using h)]
    · rw [he] at h
      simp at h

/-- C4: for an address `A` with no existing matchpoint-table entry (and
a well-formed 16-bit word in memory there), the packet pair
`Z0,A,2; z0,A,2` leaves the 16-bit word at `A` equal to its value
before the pair and both packets reply `OK`; a `z0` for an address with
no table entry also replies `OK` and changes nothing. -/
theorem c4_insert_remove_roundtrip (s : Server) (A : Nat)
    (h : mpLookup s.mp A = none) (h16 : s.mach.mem16 A < 65536) :
    (dispatch s (.insertSwBp A)).2 = [.ok] ∧
    (dispatch (dispatch s (.insertSwBp A)).1 (.removeSwBp A)).2 = [.ok] ∧
    (dispatch (dispatch s (.insertSwBp A)).1
        (.removeSwBp A)).1.mach.mem16 A = s.mach.mem16 A ∧
    (dispatch (dispatch s (.insertSwBp A)).1 (.removeSwBp A)).1.mp = s.mp ∧
    dispatch s (.removeSwBp A) = (s, [.ok]) := by
  have hrm := mpRemove_mpAdd_of_lookup_none s.mp A (s.mach.mem16 A) h
  refine ⟨rfl, ?_, ?_, ?_, ?_⟩
  · simp [dispatch, hrm]
  · simp [dispatch, hrm, writeMem16, Nat.mod_eq_of_lt h16]
  · simp [dispatch, hrm]
  · simp [dispatch, mpRemove_of_lookup_none s.mp A h]

/-- The server state used by the concrete witnesses and
counterexamples: everything zero, table empty, target halted, not
running. -/
def server0 : Server :=
  ⟨Mach.mk (fun _ => 0) 0 0 0 0 0 (fun _ => 0) true, [], false⟩

/-- Witness for C4 at address 0x100 of the all-zero halted server. -/
theorem c4_insert_remove_roundtrip_witness :
    (dispatch server0 (.insertSwBp 0x100)).2 = [.ok] ∧
    (dispatch (dispatch server0 (.insertSwBp 0x100)).1
        (.removeSwBp 0x100)).1.mach.mem16 0x100 = 0 := by
  have h := c4_insert_remove_roundtrip server0 0x100 rfl (by decide)
  exact ⟨h.1, h.2.2.1⟩

/-! ### C5: the running flag against the replies sent -/

/-- C5, counterexample: the thread-alive (`T`) handler replies `OK` —
not a stop packet — from a state where the target is halted, and the
running flag stays `false` afterwards, so "the running flag is true iff
the reply just sent was not a stop packet" fails at this reply. -/
theorem c5_counterexample_threadAlive :
    (dispatch server0 .threadAlive).2 = [.ok] ∧
    isStopReply .ok = false ∧
    (dispatch server0 .threadAlive).1.running = false ∧
    ¬ ((dispatch server0 .threadAlive).1.running = true ↔
        isStopReply .ok = false) := by
  refine ⟨rfl, rfl, rfl, ?_⟩
  intro hiff
  exact absurd (hiff.mpr rfl) (by decide)

/-- C5, amended: after any RSP reply sent by a dispatch entered with
the target halted (`fIsTargetRunning = false`, the invariant of the
server loop), the running flag is false — a stop packet is followed by
clearing the flag, and a non-stop reply leaves the flag unchanged from
its value at entry, not true. -/
theorem c5_amended_reply_leaves_flag_false (s : Server) (p : Pkt)
    (hs : s.running = false) (r : Reply) (hr : r ∈ (dispatch s p).2) :
    (dispatch s p).1.running = false ∧
    (isStopReply r = false → (dispatch s p).1.running = s.running) := by
  cases p with
  | lastSignal => exact ⟨rfl, fun _ => hs.symm⟩
  | threadAlive => exact ⟨hs, fun _ => rfl⟩
  | extendedMode => exact ⟨hs, fun _ => rfl⟩
  | argvInit => exact ⟨hs, fun _ => rfl⟩
  | detach => exact ⟨hs, fun _ => rfl⟩
  | kill => simp [dispatch] at hr
  | insertSwBp addr => exact ⟨hs, fun _ => rfl⟩
  | removeSwBp addr =>
    constructor
    · simp only [dispatch]
      rcases mpRemove s.mp addr with _ | ⟨instr, mp'⟩ <;> exact hs
    · intro _
      simp only [dispatch]
      rcases mpRemove s.mp addr with _ | ⟨instr, mp'⟩ <;> rfl
  | insertOtherMp => exact ⟨hs, fun _ => rfl⟩
  | removeOtherMp => exact ⟨hs, fun _ => rfl⟩
  | fileIOPkt payload => simp [dispatch] at hr
  | vAttach => exact ⟨hs, fun _ => rfl⟩

/-- Witness for C5's amended statement: the thread-alive handler's `OK`
(a non-stop reply) leaves the flag unchanged at false, and the `?`
handler's `S05` stop packet also leaves the flag false. -/
theorem c5_amended_reply_leaves_flag_false_witness :
    ((dispatch server0 .threadAlive).1.running = false ∧
     (isStopReply .ok = false →
       (dispatch server0 .threadAlive).1.running = server0.running)) ∧
    (dispatch server0 .lastSignal).1.running = false :=
  ⟨c5_amended_reply_leaves_flag_false server0 .threadAlive rfl .ok
     (by decide),
   (c5_amended_reply_leaves_flag_false server0 .lastSignal rfl
     (.stop TARGET_SIGNAL_TRAP 0) (by decide)).1⟩

/-! ### Step-engine observations and concrete stepping scenarios -/

/-- The IVT addresses a step outcome planted breakpoints at (`none` for
the outcomes that never reach the planting phase). -/
def StepOut.plantedIVT : StepOut → Option (List Nat)
  | .idleDone p _ => some p
  | .assertFail p => some p
  | .stepped p _ _ _ => some p
  | _ => none

/-- The matchpoint table after a completed main-path step. -/
def StepOut.finalMp : StepOut → Option MpTable
  | .stepped _ _ _ s => some s.mp
  | _ => none

/-- The 16-bit word at an address after a completed main-path step. -/
def StepOut.finalMemAt : StepOut → Nat → Option Nat
  | .stepped _ _ _ s, a => some (s.mach.mem16 a)
  | _, _ => none

/-- Did the step complete through the main path? -/
def StepOut.isStepped : StepOut → Bool
  | .stepped _ _ _ _ => true
  | _ => false

/-- C2's scenario: halted at PC 0x100 on the 16-bit, non-branching,
non-IDLE, non-TRAP opcode 0x0002; the client had previously set a user
breakpoint at the fall-through address 0x102 (`Z0,102,2`), so the
matchpoint table maps 0x102 to the original instruction 0x0777 and the
memory at 0x102 holds BKPT. -/
def c2Server : Server :=
  ⟨Mach.mk
      (fun a => if a = 0x100 then 0x0002
                else if a = 0x102 then ATDSP_BKPT_INSTR else 0)
      0x100 0 0 0 0 (fun _ => 0) true,
    [(0x102, 0x0777)], false⟩

/-- C2's hardware run: the core resumes, hits the breakpoint at 0x102
and halts with the PC advanced past it, at 0x104; memory is untouched
by the run. -/
def c2Run (m : Mach) : Mach := { m with pc := 0x104, halted := true }

/-- C2, evaluation at the failing input: a user breakpoint at the
fall-through address exists before the step (table maps 0x102 ↦
0x0777); `rspStep` completes normally, but its transient-breakpoint
cleanup removes the 0x102 entry from the table unconditionally, so the
final table is empty and the BKPT at 0x102 has been replaced by the
original instruction — the user breakpoint is gone, where the claim
requires it to be retained. -/
theorem c2_step_deletes_user_breakpoint :
    mpLookup c2Server.mp 0x102 = some 0x0777 ∧
    c2Server.mach.mem16 0x102 = ATDSP_BKPT_INSTR ∧
    (rspStep c2Run 0x100 c2Server).isStepped = true ∧
    (rspStep c2Run 0x100 c2Server).finalMp = some [] ∧
    (rspStep c2Run 0x100 c2Server).finalMemAt 0x102 = some 0x0777 := by
  refine ⟨rfl, rfl, ?_, ?_, ?_⟩ <;> decide

/-- C3's scenario: halted at PC 0x100 on the 16-bit, non-branching,
non-IDLE, non-TRAP opcode 0x0002, with interrupts globally disabled
(STATUS bit 1 set) and nothing pending (`(~IMASK & ILAT) = 0`, all
interrupts masked, none latched). -/
def c3Server : Server :=
  ⟨Mach.mk (fun a => if a = 0x100 then 0x0002 else 0)
      0x100 2 u32Max 0 0 (fun _ => 0) true,
    [], false⟩

/-- C3's hardware run: the core hits the sequential breakpoint at
0x102 and halts at 0x104. -/
def c3Run (m : Mach) : Mach := { m with pc := 0x104, halted := true }

/-- C3, counterexample: with interrupts disabled and none pending — the
claim's condition is false on both counts — the step of a non-IDLE,
non-TRAP instruction still writes BKPT into every IVT entry 1..15, so
"when that condition does not hold, no breakpoints are written into the
IVT" fails. -/
theorem c3_counterexample_ivt_planted_unconditionally :
    getfield c3Server.mach.status 1 1 = 1 ∧
    Nat.land (Nat.xor (c3Server.mach.imask % u32Mod) u32Max)
      (c3Server.mach.ilat % u32Mod) = 0 ∧
    getfield (c3Server.mach.mem16 c3Server.mach.pc) 8 0 ≠ IDLE_OPCODE ∧
    getfield (c3Server.mach.mem16 c3Server.mach.pc) 9 0 ≠ ATDSP_TRAP_INSTR ∧
    (rspStep c3Run 0x100 c3Server).plantedIVT =
      some [4, 8, 12, 16, 20, 24, 28, 32, 36, 40, 44, 48, 52, 56, 60] := by
  refine ⟨rfl, ?_, ?_, ?_, ?_⟩ <;> decide

/-- In `stepFinish`, memory is unchanged by `writePc`. -/
theorem mem16_writePc (m : Mach) (v : Nat) : (writePc m v).mem16 = m.mem16 :=
  rfl

/-- Writing one 16-bit word leaves every other address alone. -/
theorem mem16_writeMem16_ne (m : Mach) (a b v : Nat) (h : a ≠ b) :
    (writeMem16 m b v).mem16 a = m.mem16 a := by
  simp [writeMem16, h]

/-- Planting a breakpoint leaves every other address alone. -/
theorem mem16_putBkpt_ne (m : Mach) (a b : Nat) (h : a ≠ b) :
    (putBreakPointInstruction m b).mem16 a = m.mem16 a :=
  mem16_writeMem16_ne m a b ATDSP_BKPT_INSTR h

/-- The sequential-plus-conditional-jump planting phase leaves every
address other than the two breakpoint addresses alone. -/
theorem mem16_condPutBkpt_ne (m : Mach) (a b c : Nat)
    (h1 : a ≠ b) (h2 : a ≠ c) :
    (if c ≠ b then putBreakPointInstruction (putBreakPointInstruction m b) c
     else putBreakPointInstruction m b).mem16 a = m.mem16 a := by
  split
  · rw [mem16_putBkpt_ne _ _ _ h2, mem16_putBkpt_ne _ _ _ h1]
  · rw [mem16_putBkpt_ne _ _ _ h1]

/-- Every outcome of `stepFinish` records exactly the IVT plant list
for the stepped PC: entries 1..N-1 at 4-byte stride, skipping the entry
equal to the PC.  In particular the planting does not depend on the
interrupt state, which `stepFinish` never reads. -/
theorem stepFinish_plantedIVT (run : Mach → Mach) (pc_ : Nat) (r : Bool)
    (seq bja : Nat) (mp2 : MpTable) (m2 : Mach) :
    (stepFinish run pc_ r seq bja mp2 m2).plantedIVT =
      some (ivtPlantAddrs pc_) := by
  simp only [stepFinish]
  repeat' split
  all_goals rfl

/-- After the halt: restore, PC rewind and removal of the sequential
transient breakpoint leave an IVT address holding its saved value. -/
theorem mem_after_cleanup1 (m4 : Mach) (buf : Nat → Nat)
    (prevPc seq v1 a : Nat) (ha : a ∈ ivtWordAddrs) (h1 : a ≠ seq) :
    (writeMem16 (writePc (restoreIVT m4 buf) prevPc) seq v1).mem16 a
      = buf a := by
  rw [mem16_writeMem16_ne _ _ _ _ h1]
  show (restoreIVT _ _).mem16 a = _
  simp only [restoreIVT]
  rw [if_pos ha]

/-- As `mem_after_cleanup1`, with the jump transient breakpoint also
removed. -/
theorem mem_after_cleanup2 (m4 : Mach) (buf : Nat → Nat)
    (prevPc seq bja v1 v2 a : Nat) (ha : a ∈ ivtWordAddrs)
    (h1 : a ≠ seq) (h2 : a ≠ bja) :
    (writeMem16 (writeMem16 (writePc (restoreIVT m4 buf) prevPc) seq v1)
        bja v2).mem16 a = buf a := by
  rw [mem16_writeMem16_ne _ _ _ _ h2]
  exact mem_after_cleanup1 m4 buf prevPc seq v1 a ha h1

/-- When `stepFinish` completes, the recorded transient addresses are
the ones it was given and, at every IVT address other than the two
transient breakpoints, the final memory equals the memory at the moment
`saveIVT` ran: the burst restore undoes the planting. -/
theorem stepFinish_stepped_restores (run : Mach → Mach) (pc_ : Nat)
    (r : Bool) (seq bja : Nat) (mp2 : MpTable) (m2 : Mach)
    (p : List Nat) (seq' bja' : Nat) (fin : Server)
    (heq : stepFinish run pc_ r seq bja mp2 m2 = .stepped p seq' bja' fin) :
    seq' = seq ∧ bja' = bja ∧
    ∀ a ∈ ivtWordAddrs, a ≠ seq → a ≠ bja →
      fin.mach.mem16 a = m2.mem16 a := by
  simp only [stepFinish] at heq
  repeat' split at heq
  all_goals cases heq
  all_goals refine ⟨rfl, rfl, fun a ha h1 h2 => ?_⟩
  all_goals first
    | exact mem_after_cleanup2 _ _ _ _ _ _ _ a ha h1 h2
    | exact mem_after_cleanup1 _ _ _ _ _ a ha h1

/-- C3, amended: during a single step of a non-IDLE, non-TRAP
instruction from a non-exception halted state, the step engine
*unconditionally* saves the IVT and plants transient breakpoints in
entries 1..N-1 (skipping entry 0 and any entry equal to the stepped
PC) — irrespective of STATUS bit 1, IMASK and ILAT, which this path
never reads — and after the halt the IVT is restored in one burst: at
every IVT address other than the two transient breakpoint addresses
the final memory equals the memory before the step. -/
theorem c3_amended_ivt_planting_unconditional (run : Mach → Mach)
    (addr : Nat) (s : Server)
    (hh : s.mach.halted = true)
    (hex : getfield s.mach.status 18 16 = 0)
    (hidle : getfield (s.mach.mem16 s.mach.pc) 8 0 ≠ IDLE_OPCODE)
    (htrap : getfield (s.mach.mem16 s.mach.pc) 9 0 ≠ ATDSP_TRAP_INSTR)
    (haddr : addr % u32Mod = addr) :
    (rspStep run addr s).plantedIVT = some (ivtPlantAddrs addr) ∧
    (∀ p seq bja fin, rspStep run addr s = .stepped p seq bja fin →
      ∀ a ∈ ivtWordAddrs, a ≠ seq → a ≠ bja →
        fin.mach.mem16 a = s.mach.mem16 a) := by
  have hpair : (isTargetExceptionState s.mach.status TARGET_SIGNAL_NONE).1
      = false := by
    simp [isTargetExceptionState, hex]
  have hred : rspStep run addr s = rspStepMain run addr s := by
    unfold rspStep
    simp only [hh, Bool.not_true, Bool.false_eq_true, if_false, hpair,
      if_neg hidle, if_neg htrap]
    rw [if_neg (not_not_intro haddr)]
  rw [hred]
  constructor
  · simp only [rspStepMain]
    exact stepFinish_plantedIVT _ _ _ _ _ _ _
  · intro p seq bja fin heq a ha h1 h2
    simp only [rspStepMain] at heq
    obtain ⟨hseq, hbja, hmem⟩ :=
      stepFinish_stepped_restores _ _ _ _ _ _ _ _ _ _ _ heq
    subst hseq hbja
    rw [hmem a ha h1 h2]
    -- unwind the seq/jump planting and the writePc back to the entry state
    exact mem16_condPutBkpt_ne _ a _ _ h1 h2

/-- Witness for C3's amended statement at the concrete disabled-
interrupt scenario; the step does reach the main-path completion. -/
theorem c3_amended_ivt_planting_unconditional_witness :
    (rspStep c3Run 0x100 c3Server).plantedIVT =
      some (ivtPlantAddrs 0x100) ∧
    (rspStep c3Run 0x100 c3Server).isStepped = true :=
  ⟨(c3_amended_ivt_planting_unconditional c3Run 0x100 c3Server rfl
      (by decide) (by decide) (by decide) (by decide)).1,
   by decide⟩

end Epiphany

